import Mathlib

set_option maxHeartbeats 1000000
set_option linter.unusedVariables false

/-! Model of src/main.py, a Telegram bot that downloads a YouTube video with
yt-dlp and re-uploads it to the requesting chat.  The working directory is a
list of named files, the external fetch tool and the transport are inputs,
and one run of the message handler returns the new directory contents, the
trace of observable events, the abstract state sequence of the request
pipeline and its terminal state. -/

/-- A file on disk: its name and its size in bytes. -/
structure DiskFile where
  name : String
  size : Nat
deriving DecidableEq, Repr

/-- The working directory, as the list of files it holds. -/
abbrev FS := List DiskFile

/-- Embedding of the Python substring test (the operator in on strings):
the needle is a prefix of some suffix of the haystack. -/
def strContains (s sub : String) : Bool :=
  s.data.tails.any (fun t => sub.data.isPrefixOf t)

/-- Embedding of str.startswith: p is a prefix of the character data of s. -/
def strStartsWith (s p : String) : Bool := p.data.isPrefixOf s.data

/-- Embedding of os.listdir: the names of the files in the directory. -/
def listdir (fs : FS) : List String := fs.map (fun f => f.name)

/-- Embedding of os.path.exists for a name in the working directory. -/
def fsExists (fs : FS) (n : String) : Bool := fs.any (fun f => f.name == n)

/-- Embedding of os.path.getsize, defaulting to 0 when the name is absent. -/
def getsize (fs : FS) (n : String) : Nat :=
  ((fs.find? (fun f => f.name == n)).map (fun f => f.size)).getD 0

/-- Embedding of os.remove: drops every entry carrying the given name. -/
def fsRemove (fs : FS) (n : String) : FS := fs.filter (fun f => f.name != n)

/-- The chat-level filename fragment video_{chat_id} that both scans in
download_video match against (main.py lines 67 and 81). -/
def chatPre (chatId : Int) : String := "video_" ++ toString chatId

/-- The output filename video_{chat_id}_{int(time.time())}.mp4 requested from
the tool through outtmpl (main.py line 41).  The code resolves the actual
file by prefix scan, never by this name. -/
def reqName (chatId : Int) (ts : Nat) : String :=
  chatPre chatId ++ "_" ++ toString ts ++ ".mp4"

/-- Behaviour of the external fetch tool (yt_dlp) on one invocation: it
either completes after writing some files to the working directory, or
raises an exception whose str() is msg, also after possibly writing some
files (partial downloads). -/
inductive ToolOutcome where
  | success (written : List DiskFile)
  | failure (written : List DiskFile) (msg : String)
deriving DecidableEq, Repr

/-- Observable events of one request: transport calls, the tool invocation,
and the file-cleanup actions (a single os.remove, or the sweep loop of the
except branch of download_video, recorded as one event). -/
inductive Ev where
  | sendText (chatId : Int) (text : String)
  | editText (text : String)
  | deleteStatus
  | sendVideo (chatId : Int) (file : String)
  | toolRun (url : String)
  | fileRemove (name : String)
  | sweepRemove (pre : String)
deriving DecidableEq, Repr

/-- Error text of the too-large branch (main.py line 76). -/
def tooLargeMsg : String := "File too large for Telegram (Max 50MB)."

/-- Error text of the no-file branch (main.py line 72). -/
def notFoundMsg : String := "Download failed (File not found)."

/-- Initial status text (main.py line 104). -/
def procMsg : String := "🔎 Processing YouTube link..."

/-- Uploading status text (main.py line 113). -/
def uploadMsg : String := "⬆️ Uploading..."

/-- Generic error text of the except branch (main.py line 123). -/
def dlErrMsg : String := "❌ Download error."

/-- Reply to a message without a recognized URL (main.py line 101). -/
def invalidMsg : String := "Please send a valid YouTube link."

/-- The post-download size bound checked at main.py line 74. -/
def sizeCap : Nat := 49 * 1024 * 1024

/-- Result of download_video: the directory afterwards, the returned pair
(video_path, error) and the events that occurred inside the call. -/
structure FetchResult where
  fs : FS
  path : Option String
  err : Option String
  evs : List Ev
deriving DecidableEq, Repr

/-- Embedding of download_video (main.py lines 40 to 83).  The duration of
the media is an input the code never reads: run_ydl returns extract_info
metadata but line 63 discards the result, and no duration check exists.
On tool failure the except branch deletes every file whose name starts with
video_{chat_id} and returns (None, str(e)).  On tool success the code scans
the directory for the first name starting with video_{chat_id}; no match
returns the not-found error, a match larger than sizeCap is removed and the
too-large error returned, otherwise the match is returned with no error. -/
def downloadVideo (url : String) (chatId : Int) (ts : Nat) (duration : Nat)
    (tool : ToolOutcome) (fs : FS) : FetchResult :=
  match tool with
  | ToolOutcome.failure written msg =>
      let fs1 := fs ++ written
      { fs := fs1.filter (fun f => !(strStartsWith f.name (chatPre chatId))),
        path := none, err := some msg,
        evs := [Ev.toolRun url, Ev.sweepRemove (chatPre chatId)] }
  | ToolOutcome.success written =>
      let fs1 := fs ++ written
      match (listdir fs1).find? (fun f => strStartsWith f (chatPre chatId)) with
      | none =>
          { fs := fs1, path := none, err := some notFoundMsg,
            evs := [Ev.toolRun url] }
      | some f =>
          if getsize fs1 f > sizeCap then
            { fs := fsRemove fs1 f, path := none, err := some tooLargeMsg,
              evs := [Ev.toolRun url, Ev.fileRemove f] }
          else
            { fs := fs1, path := some f, err := none,
              evs := [Ev.toolRun url] }

/-- Reasons a request can fail; the code reports all of them as status-text
edits over a single untyped string channel. -/
inductive FailReason where
  | invalidUrl
  | fetchError (msg : String)
  | delivery
  | internalCrash
deriving DecidableEq, Repr

/-- Abstract pipeline states, one per checkpoint of handle_message: entered
the handler, passed the URL test, called download_video, obtained a usable
artifact, began the upload, finished. -/
inductive St where
  | received
  | validated
  | fetching
  | verified
  | delivering
  | doneSt
  | failed (r : FailReason)
deriving DecidableEq, Repr

/-- Result of one run of handle_message. -/
structure RunResult where
  fs : FS
  evs : List Ev
  states : List St
  terminal : St
deriving DecidableEq, Repr

/-- The URL test of main.py line 100: the text passes when it contains
youtube.com or youtu.be anywhere as a substring. -/
def urlOk (text : String) : Bool :=
  strContains text "youtube.com" || strContains text "youtu.be"

/-- Python truthiness of the error value: None and the empty string are
falsy, any other string is truthy. -/
def errTruthy : Option String → Bool
  | none => false
  | some e => e != ""

/-- Embedding of handle_message (main.py lines 96 to 125).  A failing URL
test replies with invalidMsg and returns before any fetch.  Otherwise a
status message is posted and download_video runs.  A truthy error edits the
status to the error text and returns.  A falsy error with no path models the
empty-exception-text corner: the success branch runs with video_path = None,
open(None) raises, the except branch edits the status, and os.path.exists(None)
raises again, escaping the handler with no further cleanup.  With a path, a
successful upload deletes the status and removes the file; a failed upload
reaches the except branch, which edits the status and removes the file when
it still exists. -/
def handleMessage (text : String) (chatId : Int) (ts : Nat) (duration : Nat)
    (tool : ToolOutcome) (deliveryOk : Bool) (fs : FS) : RunResult :=
  if urlOk text then
    let r := downloadVideo text chatId ts duration tool fs
    let evs0 := Ev.sendText chatId procMsg :: r.evs
    if errTruthy r.err then
      { fs := r.fs,
        evs := evs0 ++ [Ev.editText ("❌ Error: " ++ r.err.getD "")],
        states := [St.received, St.validated, St.fetching,
          St.failed (FailReason.fetchError (r.err.getD ""))],
        terminal := St.failed (FailReason.fetchError (r.err.getD "")) }
    else
      match r.path with
      | none =>
          { fs := r.fs,
            evs := evs0 ++ [Ev.editText uploadMsg, Ev.editText dlErrMsg],
            states := [St.received, St.validated, St.fetching,
              St.failed FailReason.internalCrash],
            terminal := St.failed FailReason.internalCrash }
      | some p =>
          if deliveryOk then
            { fs := fsRemove r.fs p,
              evs := evs0 ++ [Ev.editText uploadMsg, Ev.sendVideo chatId p,
                Ev.deleteStatus, Ev.fileRemove p],
              states := [St.received, St.validated, St.fetching, St.verified,
                St.delivering, St.doneSt],
              terminal := St.doneSt }
          else
            { fs := if fsExists r.fs p then fsRemove r.fs p else r.fs,
              evs := evs0 ++ [Ev.editText uploadMsg, Ev.editText dlErrMsg] ++
                (if fsExists r.fs p then [Ev.fileRemove p] else []),
              states := [St.received, St.validated, St.fetching, St.verified,
                St.delivering, St.failed FailReason.delivery],
              terminal := St.failed FailReason.delivery }
  else
    { fs := fs, evs := [Ev.sendText chatId invalidMsg],
      states := [St.received, St.failed FailReason.invalidUrl],
      terminal := St.failed FailReason.invalidUrl }

/-- Transport-level actions of main() before and at polling start. -/
inductive StartEv where
  | deleteWebhook
  | startPolling
deriving DecidableEq, Repr

/-- Outcome of process startup. -/
inductive MainResult where
  | exited (code : Nat)
  | polling
deriving DecidableEq, Repr

/-- Python truthiness of the TOKEN value read from the environment: absent
(None) and the empty string are both falsy. -/
def tokenFalsy : Option String → Bool
  | none => true
  | some s => s == ""

/-- Embedding of main() startup (main.py lines 128 to 152): a falsy token
logs and calls sys.exit(1) before the application is built, so no transport
action happens; otherwise the webhook reset and polling start run. -/
def mainStartup (token : Option String) : MainResult × List StartEv :=
  if tokenFalsy token then (MainResult.exited 1, [])
  else (MainResult.polling, [StartEv.deleteWebhook, StartEv.startPolling])

/-- An event is a cleanup action when it removes a file or runs the sweep. -/
def cleanupEv : Ev → Bool
  | Ev.fileRemove _ => true
  | Ev.sweepRemove _ => true
  | _ => false

/-- Number of cleanup actions in a trace. -/
def cleanupCount (evs : List Ev) : Nat := (evs.filter cleanupEv).length

/-- No file of the directory matches the chat-level fragment of chatId. -/
def noChatFiles (chatId : Int) (fs : FS) : Bool :=
  fs.all (fun f => !(strStartsWith f.name (chatPre chatId)))

/-- Shape of a download_video result, relative to the tool outcome that
produced it: a success carries a path, no error, an existing file within
sizeCap; a failure carries no path and an error string, equal to the
exception text on tool failure and nonempty on the two in-code failure
branches. -/
def resultShape (tool : ToolOutcome) (r : FetchResult) : Bool :=
  match r.path, r.err with
  | some p, none => fsExists r.fs p && decide (getsize r.fs p ≤ sizeCap)
  | none, some e =>
      match tool with
      | ToolOutcome.success _ => e != ""
      | ToolOutcome.failure _ m => e == m
  | _, _ => false

/-- Numeric value of a decimal digit character. -/
def digitVal (c : Char) : Nat := c.toNat - 48

/-- Value of a list of decimal digit characters, most significant first. -/
def valOfDigits (cs : List Char) : Nat :=
  cs.foldl (fun a c => 10 * a + digitVal c) 0

/-! Supporting lemmas. -/

/-- A string starting with an appended pair also starts with the left part. -/
theorem strStartsWith_of_append (f a b : String)
    (h : strStartsWith f (a ++ b) = true) : strStartsWith f a = true := by
  simp only [strStartsWith, List.isPrefixOf_iff_prefix, String.data_append] at h ⊢
  exact (List.prefix_append a.data b.data).trans h

/-- The requested output name starts with the chat-level fragment. -/
theorem reqName_startsWith (chatId : Int) (ts : Nat) :
    strStartsWith (reqName chatId ts) (chatPre chatId) = true := by
  simp only [strStartsWith, reqName, List.isPrefixOf_iff_prefix, String.data_append,
    List.append_assoc]
  exact List.prefix_append _ _

/-- In a directory with no chat-fragment match, no file carries the
requested output name. -/
theorem noChat_name_ne (chatId : Int) (ts : Nat) (fs : FS)
    (hfs : noChatFiles chatId fs = true) :
    ∀ f ∈ fs, (f.name == reqName chatId ts) = false := by
  intro f hf
  have h1 := List.all_eq_true.1 hfs f hf
  rw [Bool.not_eq_true'] at h1
  by_contra hne
  rw [Bool.not_eq_false, beq_iff_eq] at hne
  rw [hne, reqName_startsWith chatId ts] at h1
  simp at h1

/-- In a directory with no chat-fragment match, the resolution scan of
download_video finds nothing. -/
theorem find?_names_none (chatId : Int) (fs : FS)
    (hfs : noChatFiles chatId fs = true) :
    (listdir fs).find? (fun f => strStartsWith f (chatPre chatId)) = none := by
  rw [List.find?_eq_none]
  intro n hn
  rw [listdir, List.mem_map] at hn
  obtain ⟨f, hf, rfl⟩ := hn
  have h1 := List.all_eq_true.1 hfs f hf
  rw [Bool.not_eq_true'] at h1
  simp [h1]

/-- Evaluation of download_video on tool failure. -/
theorem downloadVideo_failure_eq (url : String) (chatId : Int) (ts duration : Nat)
    (w : List DiskFile) (m : String) (fs : FS) :
    downloadVideo url chatId ts duration (ToolOutcome.failure w m) fs =
      { fs := (fs ++ w).filter (fun f => !(strStartsWith f.name (chatPre chatId))),
        path := none, err := some m,
        evs := [Ev.toolRun url, Ev.sweepRemove (chatPre chatId)] } := rfl

/-- Evaluation of download_video when the tool succeeded but wrote nothing
and no stale file matches the chat fragment. -/
theorem downloadVideo_notFound_eq (url : String) (chatId : Int) (ts duration : Nat)
    (fs : FS) (hfs : noChatFiles chatId fs = true) :
    downloadVideo url chatId ts duration (ToolOutcome.success []) fs =
      { fs := fs, path := none, err := some notFoundMsg,
        evs := [Ev.toolRun url] } := by
  simp only [downloadVideo, List.append_nil, find?_names_none chatId fs hfs]

/-- Size lookup after appending a file with a fresh name. -/
theorem getsize_append_single (fs : FS) (d : DiskFile)
    (h : ∀ f ∈ fs, (f.name == d.name) = false) :
    getsize (fs ++ [d]) d.name = d.size := by
  unfold getsize
  rw [List.find?_append]
  have h1 : fs.find? (fun f => f.name == d.name) = none := by
    rw [List.find?_eq_none]
    intro f hf
    simp [h f hf]
  rw [h1]
  simp

/-- Removing a freshly appended name restores the directory. -/
theorem fsRemove_append_single (fs : FS) (d : DiskFile)
    (h : ∀ f ∈ fs, (f.name == d.name) = false) :
    fsRemove (fs ++ [d]) d.name = fs := by
  unfold fsRemove
  rw [List.filter_append]
  have h1 : fs.filter (fun f => f.name != d.name) = fs := by
    rw [List.filter_eq_self]
    intro f hf
    simp [bne, h f hf]
  rw [h1]
  simp [bne]

/-- A freshly appended file exists in the directory. -/
theorem fsExists_append_single (fs : FS) (d : DiskFile) :
    fsExists (fs ++ [d]) d.name = true := by
  simp [fsExists]

/-- The resolution scan over a clean directory plus the requested file finds
exactly the requested file. -/
theorem find?_single (chatId : Int) (ts sz : Nat) (fs : FS)
    (hfs : noChatFiles chatId fs = true) :
    (listdir (fs ++ [⟨reqName chatId ts, sz⟩])).find?
        (fun f => strStartsWith f (chatPre chatId)) = some (reqName chatId ts) := by
  have h1 := find?_names_none chatId fs hfs
  simp only [listdir, List.map_append] at h1 ⊢
  rw [List.find?_append, h1]
  simp [List.find?_cons_of_pos, reqName_startsWith]

/-- Evaluation of download_video when the tool wrote exactly the requested
file, no stale file matches the chat fragment, and the file is too large. -/
theorem downloadVideo_large_eq (url : String) (chatId : Int) (ts duration sz : Nat)
    (fs : FS) (hfs : noChatFiles chatId fs = true) (hsz : sz > sizeCap) :
    downloadVideo url chatId ts duration
        (ToolOutcome.success [⟨reqName chatId ts, sz⟩]) fs =
      { fs := fs, path := none, err := some tooLargeMsg,
        evs := [Ev.toolRun url, Ev.fileRemove (reqName chatId ts)] } := by
  have hne := noChat_name_ne chatId ts fs hfs
  have hg : getsize (fs ++ [⟨reqName chatId ts, sz⟩]) (reqName chatId ts) = sz :=
    getsize_append_single fs ⟨reqName chatId ts, sz⟩ hne
  have hr : fsRemove (fs ++ [⟨reqName chatId ts, sz⟩]) (reqName chatId ts) = fs :=
    fsRemove_append_single fs ⟨reqName chatId ts, sz⟩ hne
  simp only [downloadVideo, find?_single chatId ts sz fs hfs, hg, hr]
  rw [if_pos hsz]

/-- Evaluation of download_video when the tool wrote exactly the requested
file, no stale file matches the chat fragment, and the file is within the
size bound. -/
theorem downloadVideo_ok_eq (url : String) (chatId : Int) (ts duration sz : Nat)
    (fs : FS) (hfs : noChatFiles chatId fs = true) (hsz : ¬ sz > sizeCap) :
    downloadVideo url chatId ts duration
        (ToolOutcome.success [⟨reqName chatId ts, sz⟩]) fs =
      { fs := fs ++ [⟨reqName chatId ts, sz⟩], path := some (reqName chatId ts),
        err := none, evs := [Ev.toolRun url] } := by
  have hne := noChat_name_ne chatId ts fs hfs
  have hg : getsize (fs ++ [⟨reqName chatId ts, sz⟩]) (reqName chatId ts) = sz :=
    getsize_append_single fs ⟨reqName chatId ts, sz⟩ hne
  simp only [downloadVideo, find?_single chatId ts sz fs hfs, hg]
  rw [if_neg hsz]

/-! Decimal rendering: the digit strings of two distinct integers differ.
These lemmas relate the core rendering of numerals to valOfDigits and give
injectivity of toString on Int, needed for the artifact-name claims. -/

/-- The accumulator of toDigitsCore is simply appended to the output. -/
theorem toDigitsCore_acc (b : Nat) :
    ∀ (f n : Nat) (acc : List Char),
      Nat.toDigitsCore b f n acc = Nat.toDigitsCore b f n [] ++ acc := by
  intro f
  induction f with
  | zero =>
      intro n acc
      simp [Nat.toDigitsCore]
  | succ f ih =>
      intro n acc
      simp only [Nat.toDigitsCore]
      by_cases h : n / b = 0
      · simp [h]
      · simp only [h, if_false]
        rw [ih (n / b) (Nat.digitChar (n % b) :: acc),
          ih (n / b) [Nat.digitChar (n % b)]]
        simp

/-- Any sufficient fuel computes the same digit list. -/
theorem toDigitsCore_fuel (n : Nat) : ∀ f : Nat, n < f →
    Nat.toDigitsCore 10 f n [] = Nat.toDigits 10 n := by
  induction n using Nat.strong_induction_on with
  | _ n ih =>
      intro f hf
      cases f with
      | zero => omega
      | succ f =>
          rw [Nat.toDigits]
          simp only [Nat.toDigitsCore]
          by_cases h : n / 10 = 0
          · simp [h]
          · simp only [h, if_false]
            have hlt : n / 10 < n := Nat.div_lt_self (by omega) (by decide)
            rw [toDigitsCore_acc 10 f (n / 10), toDigitsCore_acc 10 n (n / 10),
              ih (n / 10) hlt f (by omega), ih (n / 10) hlt n hlt]

/-- Unfolding step of the digit rendering for numbers of two or more
digits. -/
theorem toDigits_step (n : Nat) (h : n / 10 ≠ 0) :
    Nat.toDigits 10 n = Nat.toDigits 10 (n / 10) ++ [Nat.digitChar (n % 10)] := by
  rw [Nat.toDigits]
  simp only [Nat.toDigitsCore, h, if_false]
  rw [toDigitsCore_acc 10 n (n / 10),
    toDigitsCore_fuel (n / 10) n (Nat.div_lt_self (by omega) (by decide))]

/-- Appending one digit multiplies the value by ten and adds the digit. -/
theorem valOfDigits_append (l : List Char) (c : Char) :
    valOfDigits (l ++ [c]) = 10 * valOfDigits l + digitVal c := by
  simp [valOfDigits, List.foldl_append]

/-- The rendered digit character evaluates back to the digit. -/
theorem digitVal_digitChar (k : Nat) (h : k < 10) :
    digitVal (Nat.digitChar k) = k := by
  interval_cases k <;> decide

/-- Round trip: the value of the rendered digit list is the number itself. -/
theorem valOfDigits_toDigits (n : Nat) : valOfDigits (Nat.toDigits 10 n) = n := by
  induction n using Nat.strong_induction_on with
  | _ n ih =>
      by_cases h : n / 10 = 0
      · have hn : n < 10 := by omega
        rw [Nat.toDigits]
        simp only [Nat.toDigitsCore, h, if_true]
        rw [Nat.mod_eq_of_lt hn]
        simp [valOfDigits, digitVal_digitChar n hn]
      · rw [toDigits_step n h, valOfDigits_append,
          ih (n / 10) (Nat.div_lt_self (by omega) (by decide)),
          digitVal_digitChar (n % 10) (Nat.mod_lt n (by decide))]
        omega

/-- Two strings with the same character data are equal. -/
theorem string_data_inj (s t : String) (h : s.data = t.data) : s = t := by
  cases s
  cases t
  exact congrArg String.mk h

/-- The decimal rendering of natural numbers is injective. -/
theorem natRepr_inj (m n : Nat) (h : Nat.repr m = Nat.repr n) : m = n := by
  have h2 : Nat.toDigits 10 m = Nat.toDigits 10 n := by
    have h1 := congrArg String.data h
    simpa [Nat.repr, List.asString] using h1
  calc m = valOfDigits (Nat.toDigits 10 m) := (valOfDigits_toDigits m).symm
    _ = valOfDigits (Nat.toDigits 10 n) := by rw [h2]
    _ = n := valOfDigits_toDigits n

/-- Above fifteen every digit character is the star placeholder. -/
theorem digitChar_of_big (n : Nat) (h : 16 ≤ n) : Nat.digitChar n = '*' := by
  unfold Nat.digitChar
  repeat rw [if_neg (by omega)]

/-- No digit character is an underscore. -/
theorem digitChar_ne_under (k : Nat) : Nat.digitChar k ≠ '_' := by
  by_cases hk : k < 16
  · interval_cases k <;> decide
  · rw [digitChar_of_big k (by omega)]
    decide

/-- No digit character is a minus sign. -/
theorem digitChar_ne_dash (k : Nat) : Nat.digitChar k ≠ '-' := by
  by_cases hk : k < 16
  · interval_cases k <;> decide
  · rw [digitChar_of_big k (by omega)]
    decide

/-- Every character produced by toDigitsCore is from the accumulator or a
digit character. -/
theorem mem_toDigitsCore (b : Nat) :
    ∀ (f n : Nat) (acc : List Char) (c : Char),
      c ∈ Nat.toDigitsCore b f n acc → c ∈ acc ∨ ∃ k, c = Nat.digitChar k := by
  intro f
  induction f with
  | zero =>
      intro n acc c hc
      exact Or.inl (by simpa [Nat.toDigitsCore] using hc)
  | succ f ih =>
      intro n acc c hc
      simp only [Nat.toDigitsCore] at hc
      by_cases h : n / b = 0
      · rw [if_pos h] at hc
        rcases List.mem_cons.1 hc with h1 | h1
        · exact Or.inr ⟨n % b, h1⟩
        · exact Or.inl h1
      · rw [if_neg h] at hc
        rcases ih (n / b) (Nat.digitChar (n % b) :: acc) c hc with h1 | h1
        · rcases List.mem_cons.1 h1 with h2 | h2
          · exact Or.inr ⟨n % b, h2⟩
          · exact Or.inl h2
        · exact Or.inr h1

/-- Every character of a rendered natural number is a digit character. -/
theorem natRepr_chars (n : Nat) (c : Char) (hc : c ∈ (Nat.repr n).data) :
    ∃ k, c = Nat.digitChar k := by
  have hc2 : c ∈ Nat.toDigitsCore 10 (n + 1) n [] := by
    simpa [Nat.repr, List.asString, Nat.toDigits] using hc
  rcases mem_toDigitsCore 10 (n + 1) n [] c hc2 with h | h
  · simp at h
  · exact h

/-- Rendering a nonnegative integer renders its natural value. -/
theorem toString_int_ofNat (m : Nat) : toString (Int.ofNat m) = Nat.repr m := rfl

/-- Rendering a negative integer prepends a minus sign. -/
theorem toString_int_negSucc (m : Nat) :
    toString (Int.negSucc m) = "-" ++ Nat.repr (m + 1) := rfl

/-- The rendering of integers is injective. -/
theorem toStringInt_inj (a b : Int) (h : toString a = toString b) : a = b := by
  cases a with
  | ofNat m =>
      cases b with
      | ofNat n =>
          rw [toString_int_ofNat, toString_int_ofNat] at h
          rw [natRepr_inj m n h]
      | negSucc n =>
          rw [toString_int_ofNat, toString_int_negSucc] at h
          exfalso
          have hd := congrArg String.data h
          rw [String.data_append] at hd
          have hdash : ("-" : String).data = ['-'] := rfl
          rw [hdash] at hd
          have hm : '-' ∈ (Nat.repr m).data := by
            rw [hd]
            exact List.mem_append_left _ (List.mem_singleton.2 rfl)
          rcases natRepr_chars m '-' hm with ⟨k, hk⟩
          exact digitChar_ne_dash k hk.symm
  | negSucc m =>
      cases b with
      | ofNat n =>
          rw [toString_int_negSucc, toString_int_ofNat] at h
          exfalso
          have hd := congrArg String.data h
          rw [String.data_append] at hd
          have hdash : ("-" : String).data = ['-'] := rfl
          rw [hdash] at hd
          have hm : '-' ∈ (Nat.repr n).data := by
            rw [← hd]
            exact List.mem_append_left _ (List.mem_singleton.2 rfl)
          rcases natRepr_chars n '-' hm with ⟨k, hk⟩
          exact digitChar_ne_dash k hk.symm
      | negSucc n =>
          rw [toString_int_negSucc, toString_int_negSucc] at h
          have hd := congrArg String.data h
          rw [String.data_append, String.data_append] at hd
          have h2 := List.append_cancel_left hd
          have h3 := natRepr_inj (m + 1) (n + 1) (string_data_inj _ _ h2)
          have h4 : m = n := by omega
          rw [h4]

/-- The rendering of an integer never contains an underscore. -/
theorem toStringInt_no_under (i : Int) (c : Char)
    (hc : c ∈ (toString i).data) : c ≠ '_' := by
  cases i with
  | ofNat m =>
      rw [toString_int_ofNat] at hc
      rcases natRepr_chars m c hc with ⟨k, hk⟩
      rw [hk]
      exact digitChar_ne_under k
  | negSucc m =>
      rw [toString_int_negSucc] at hc
      rw [String.data_append] at hc
      rcases List.mem_append.1 hc with h | h
      · have hdash : ("-" : String).data = ['-'] := rfl
        rw [hdash] at h
        rw [List.mem_singleton.1 h]
        decide
      · rcases natRepr_chars (m + 1) c h with ⟨k, hk⟩
        rw [hk]
        exact digitChar_ne_under k

/-- A first separator occurrence splits a concatenation uniquely. -/
theorem sep_split : ∀ (l1 l2 r1 r2 : List Char),
    Char.ofNat 95 ∉ l1 → Char.ofNat 95 ∉ l2 →
    l1 ++ Char.ofNat 95 :: r1 = l2 ++ Char.ofNat 95 :: r2 →
    l1 = l2 ∧ r1 = r2 := by
  intro l1
  induction l1 with
  | nil =>
      intro l2 r1 r2 h1 h2 h
      cases l2 with
      | nil => simpa using h
      | cons c t =>
          simp only [List.nil_append, List.cons_append, List.cons.injEq] at h
          obtain ⟨hc, -⟩ := h
          rw [hc] at h2
          exact absurd (List.mem_cons_self _ _) h2
  | cons c t ih =>
      intro l2 r1 r2 h1 h2 h
      cases l2 with
      | nil =>
          simp only [List.nil_append, List.cons_append, List.cons.injEq] at h
          obtain ⟨hc, -⟩ := h
          rw [← hc] at h1
          exact absurd (List.mem_cons_self _ _) h1
      | cons d u =>
          simp only [List.cons_append, List.cons.injEq] at h
          obtain ⟨hcd, ht⟩ := h
          have h1a : Char.ofNat 95 ∉ t := fun hm => h1 (List.mem_cons_of_mem _ hm)
          have h2a : Char.ofNat 95 ∉ u := fun hm => h2 (List.mem_cons_of_mem _ hm)
          obtain ⟨he, hr⟩ := ih u r1 r2 h1a h2a ht
          subst hcd
          exact ⟨by rw [he], hr⟩

/-- Requested output names of requests from distinct chat identities are
distinct: the chat identity is recoverable from the name, because the
rendered identity contains no underscore and ends at the first underscore
after the fixed fragment. -/
theorem reqName_inj_chat (a b : Int) (ta tb : Nat)
    (h : reqName a ta = reqName b tb) : a = b := by
  have hd := congrArg String.data h
  simp only [reqName, chatPre, String.data_append, List.append_assoc] at hd
  have hcan := List.append_cancel_left hd
  simp only [List.singleton_append] at hcan
  have hua : '_' ∉ (toString a).data := fun hm => toStringInt_no_under a '_' hm rfl
  have hub : '_' ∉ (toString b).data := fun hm => toStringInt_no_under b '_' hm rfl
  have h95 : '_' = Char.ofNat 95 := rfl
  rw [h95] at hcan hua hub
  obtain ⟨he, -⟩ := sep_split (toString a).data (toString b).data _ _ hua hub hcan
  exact toStringInt_inj a b (string_data_inj _ _ he)

/-! Claim C5: unrecognized text is rejected before any fetch. -/

/-- C5: an inbound text that does not contain a recognized URL fragment ends
in the invalid-URL failure state, the user is told to resend a valid link,
the trace holds no tool invocation and no status post, and the directory is
unchanged, so no artifact is ever allocated. -/
theorem C5_theorem (text : String) (chatId : Int) (ts duration : Nat)
    (tool : ToolOutcome) (deliveryOk : Bool) (fs : FS)
    (h : urlOk text = false) :
    handleMessage text chatId ts duration tool deliveryOk fs =
      { fs := fs, evs := [Ev.sendText chatId invalidMsg],
        states := [St.received, St.failed FailReason.invalidUrl],
        terminal := St.failed FailReason.invalidUrl } := by
  simp [handleMessage, h]

/-- C5 applied at the concrete input hello. -/
theorem C5_witness :
    urlOk "hello" = false ∧
    handleMessage "hello" 7 0 0 (ToolOutcome.success []) true [] =
      { fs := [], evs := [Ev.sendText 7 invalidMsg],
        states := [St.received, St.failed FailReason.invalidUrl],
        terminal := St.failed FailReason.invalidUrl } :=
  ⟨by decide, C5_theorem "hello" 7 0 0 (ToolOutcome.success []) true [] (by decide)⟩

/-! Claim C8: a missing credential aborts startup. -/

/-- C8: a falsy transport credential (absent, or empty as Python truthiness
has it) makes startup exit with code 1 and an empty transport-action trace,
so no transport connection is attempted. -/
theorem C8_theorem (token : Option String) (h : tokenFalsy token = true) :
    mainStartup token = (MainResult.exited 1, []) := by
  simp [mainStartup, h]

/-- C8 applied at the concrete input of an absent credential. -/
theorem C8_witness :
    tokenFalsy none = true ∧ mainStartup none = (MainResult.exited 1, []) :=
  ⟨rfl, C8_theorem none rfl⟩

/-! Claim C6: the mid-fetch exception sweep. -/

/-- C6: on any exception mid-fetch, whatever partial files were written,
download_video returns the failure pair and afterwards no file whose name
matches the chat fragment, hence none matching the longer request fragment,
remains in the working directory. -/
theorem C6_theorem (url : String) (chatId : Int) (ts duration : Nat)
    (written : List DiskFile) (msg : String) (fs : FS) :
    (downloadVideo url chatId ts duration (ToolOutcome.failure written msg) fs).path
        = none ∧
    (downloadVideo url chatId ts duration (ToolOutcome.failure written msg) fs).err
        = some msg ∧
    noChatFiles chatId
      (downloadVideo url chatId ts duration (ToolOutcome.failure written msg) fs).fs
        = true ∧
    (downloadVideo url chatId ts duration (ToolOutcome.failure written msg) fs).fs.all
      (fun f => strStartsWith f.name (chatPre chatId ++ "_" ++ toString ts) == false)
        = true := by
  refine ⟨rfl, rfl, ?_, ?_⟩
  · rw [downloadVideo_failure_eq]
    rw [noChatFiles, List.all_eq_true]
    intro f hf
    simp only [List.mem_filter] at hf
    exact hf.2
  · rw [downloadVideo_failure_eq]
    rw [List.all_eq_true]
    intro f hf
    simp only [List.mem_filter] at hf
    have h2 := hf.2
    rw [Bool.not_eq_true'] at h2
    show (strStartsWith f.name (chatPre chatId ++ "_" ++ toString ts) == false) = true
    rw [beq_iff_eq]
    by_contra hc
    rw [Bool.not_eq_false] at hc
    have h3 := strStartsWith_of_append f.name (chatPre chatId) "_"
      (strStartsWith_of_append f.name (chatPre chatId ++ "_") (toString ts) hc)
    rw [h3] at h2
    simp at h2

/-! Claim C9: the shape of the download_video result. -/

/-- C9 amended: download_video always returns exactly one of two shapes:
a path with no error, where the file exists in the directory afterwards and
its size is at most sizeCap, or no path with an error string; the error
string equals the exception text on tool failure (and so can be empty) and
is one of the two nonempty in-code messages otherwise. -/
theorem C9_theorem (url : String) (chatId : Int) (ts duration : Nat)
    (tool : ToolOutcome) (fs : FS) :
    resultShape tool (downloadVideo url chatId ts duration tool fs) = true := by
  cases tool with
  | failure w m =>
      rw [downloadVideo_failure_eq]
      simp [resultShape]
  | success w =>
      simp only [downloadVideo]
      cases hfind : (listdir (fs ++ w)).find? (fun f => strStartsWith f (chatPre chatId)) with
      | none =>
          simp only [resultShape]
          decide
      | some f =>
          dsimp only
          by_cases hs : getsize (fs ++ w) f > sizeCap
          · rw [if_pos hs]
            simp only [resultShape]
            decide
          · rw [if_neg hs]
            simp only [resultShape]
            have hmem : f ∈ listdir (fs ++ w) := List.mem_of_find?_eq_some hfind
            have hex : fsExists (fs ++ w) f = true := by
              rw [listdir, List.mem_map] at hmem
              obtain ⟨g, hg, rfl⟩ := hmem
              rw [fsExists, List.any_eq_true]
              exact ⟨g, hg, by simp⟩
            rw [hex]
            simp [Nat.not_lt.1 hs]

/-- C9 counterexample: a mid-fetch exception whose text is empty yields the
failure shape with an empty error string, so the error string of a failure
is not always nonempty. -/
theorem C9_counterexample :
    (downloadVideo "u" 1 0 0 (ToolOutcome.failure [] "") []).path = none ∧
    (downloadVideo "u" 1 0 0 (ToolOutcome.failure [] "") []).err = some "" :=
  ⟨rfl, rfl⟩

/-! Claim C2: no duration check exists. -/

/-- C2 amended: the outcome of handle_message does not depend on the probed
duration of the media; the code discards the extract_info metadata and never
compares any duration against a limit. -/
theorem C2_theorem (text : String) (chatId : Int) (ts d1 d2 : Nat)
    (tool : ToolOutcome) (deliveryOk : Bool) (fs : FS) :
    handleMessage text chatId ts d1 tool deliveryOk fs =
      handleMessage text chatId ts d2 tool deliveryOk fs := rfl

/-- C2 counterexample: a request whose probed duration 1200 exceeds the
limit 900 of the spec scenario still ends in the Done state with a
sendVideo call, because no duration check exists in the code. -/
theorem C2_counterexample :
    (1200 : Nat) > 900 ∧
    (handleMessage "https://youtu.be/xyz" 1 100 1200
        (ToolOutcome.success [⟨reqName 1 100, 10 * 1024 * 1024⟩]) true []).terminal
      = St.doneSt ∧
    ((handleMessage "https://youtu.be/xyz" 1 100 1200
        (ToolOutcome.success [⟨reqName 1 100, 10 * 1024 * 1024⟩]) true []).evs.contains
      (Ev.sendVideo 1 (reqName 1 100))) = true := by
  refine ⟨by decide, by decide, by decide⟩

/-! Claim C10: substring-based URL validation. -/

/-- Every branch of download_video records the tool invocation first. -/
theorem toolRun_mem_downloadVideo (url : String) (chatId : Int) (ts duration : Nat)
    (tool : ToolOutcome) (fs : FS) :
    Ev.toolRun url ∈ (downloadVideo url chatId ts duration tool fs).evs := by
  cases tool with
  | failure w m =>
      rw [downloadVideo_failure_eq]
      simp
  | success w =>
      simp only [downloadVideo]
      cases hfind : (listdir (fs ++ w)).find? (fun f => strStartsWith f (chatPre chatId)) with
      | none => simp
      | some f =>
          dsimp only
          split <;> simp

/-- When the URL test passes, the trace of handle_message starts with the
status post followed by the download_video events. -/
theorem handleMessage_evs_valid (text : String) (chatId : Int) (ts duration : Nat)
    (tool : ToolOutcome) (deliveryOk : Bool) (fs : FS) (h : urlOk text = true) :
    ∃ rest, (handleMessage text chatId ts duration tool deliveryOk fs).evs =
      Ev.sendText chatId procMsg ::
        ((downloadVideo text chatId ts duration tool fs).evs ++ rest) := by
  simp only [handleMessage, h, if_true]
  split
  · exact ⟨_, by simp only [List.cons_append, List.append_assoc]; rfl⟩
  · split
    · exact ⟨_, by simp only [List.cons_append, List.append_assoc]; rfl⟩
    · split
      · exact ⟨_, by simp only [List.cons_append, List.append_assoc]; rfl⟩
      · exact ⟨_, by
          simp only [List.cons_append, List.append_assoc, List.nil_append]; rfl⟩

/-- C10: any text containing youtube.com or youtu.be anywhere as a raw
substring passes validation, the status post happens and the fetch tool is
invoked on that text. -/
theorem C10_theorem (text : String) (chatId : Int) (ts duration : Nat)
    (tool : ToolOutcome) (deliveryOk : Bool) (fs : FS)
    (h : strContains text "youtube.com" = true ∨ strContains text "youtu.be" = true) :
    Ev.sendText chatId procMsg ∈
        (handleMessage text chatId ts duration tool deliveryOk fs).evs ∧
    Ev.toolRun text ∈
        (handleMessage text chatId ts duration tool deliveryOk fs).evs := by
  have hu : urlOk text = true := by
    rcases h with h | h <;> simp [urlOk, h]
  obtain ⟨rest, hevs⟩ :=
    handleMessage_evs_valid text chatId ts duration tool deliveryOk fs hu
  rw [hevs]
  constructor
  · exact List.mem_cons_self _ _
  · exact List.mem_cons_of_mem _
      (List.mem_append_left _ (toolRun_mem_downloadVideo text chatId ts duration tool fs))

/-- C10 applied at a concrete text that contains youtube.com but is not a
URL at all. -/
theorem C10_witness :
    strContains "xyoutube.comx" "youtube.com" = true ∧
    (Ev.sendText 3 procMsg ∈
        (handleMessage "xyoutube.comx" 3 0 0 (ToolOutcome.success []) true []).evs ∧
     Ev.toolRun "xyoutube.comx" ∈
        (handleMessage "xyoutube.comx" 3 0 0 (ToolOutcome.success []) true []).evs) :=
  ⟨by decide, C10_theorem "xyoutube.comx" 3 0 0 (ToolOutcome.success []) true []
    (Or.inl (by decide))⟩

/-! Claim C3: oversized artifacts are removed before the failure message. -/

/-- C3: when the tool delivers the requested file with a size above sizeCap
into a directory with no stale chat-fragment file, the run removes the file
and only afterwards edits the status to the too-large failure text; the
terminal state carries the too-large error and the directory is restored. -/
theorem C3_theorem (url : String) (chatId : Int) (ts duration sz : Nat)
    (deliveryOk : Bool) (fs : FS)
    (hurl : urlOk url = true)
    (hfs : noChatFiles chatId fs = true)
    (hsz : sz > sizeCap) :
    handleMessage url chatId ts duration
        (ToolOutcome.success [⟨reqName chatId ts, sz⟩]) deliveryOk fs =
      { fs := fs,
        evs := [Ev.sendText chatId procMsg, Ev.toolRun url,
          Ev.fileRemove (reqName chatId ts),
          Ev.editText ("❌ Error: " ++ tooLargeMsg)],
        states := [St.received, St.validated, St.fetching,
          St.failed (FailReason.fetchError tooLargeMsg)],
        terminal := St.failed (FailReason.fetchError tooLargeMsg) } := by
  simp only [handleMessage, hurl, if_true,
    downloadVideo_large_eq url chatId ts duration sz fs hfs hsz]
  have he : errTruthy (some tooLargeMsg) = true := by decide
  simp [he]

/-- C3 applied at a concrete oversized request. -/
theorem C3_witness :
    urlOk "https://youtu.be/abc123" = true ∧
    noChatFiles 1 [] = true ∧
    50 * 1024 * 1024 > sizeCap ∧
    handleMessage "https://youtu.be/abc123" 1 0 0
        (ToolOutcome.success [⟨reqName 1 0, 50 * 1024 * 1024⟩]) true [] =
      { fs := [],
        evs := [Ev.sendText 1 procMsg, Ev.toolRun "https://youtu.be/abc123",
          Ev.fileRemove (reqName 1 0),
          Ev.editText ("❌ Error: " ++ tooLargeMsg)],
        states := [St.received, St.validated, St.fetching,
          St.failed (FailReason.fetchError tooLargeMsg)],
        terminal := St.failed (FailReason.fetchError tooLargeMsg) } :=
  ⟨by decide, by decide, by decide,
    C3_theorem "https://youtu.be/abc123" 1 0 0 (50 * 1024 * 1024) true []
      (by decide) (by decide) (by decide)⟩

/-! Claim C7: the in-limits request runs to Done. -/

/-- C7: when the URL test passes, the tool delivers the requested file with
a size within sizeCap into a directory with no stale chat-fragment file, and
the upload succeeds, the pipeline passes through every non-failure state to
Done; the trace shows the upload status edit, then sendVideo as the last
transport send, then the status deletion, then the file removal, and the
directory is restored. -/
theorem C7_theorem (url : String) (chatId : Int) (ts duration sz : Nat) (fs : FS)
    (hurl : urlOk url = true)
    (hfs : noChatFiles chatId fs = true)
    (hsz : ¬ sz > sizeCap) :
    handleMessage url chatId ts duration
        (ToolOutcome.success [⟨reqName chatId ts, sz⟩]) true fs =
      { fs := fs,
        evs := [Ev.sendText chatId procMsg, Ev.toolRun url, Ev.editText uploadMsg,
          Ev.sendVideo chatId (reqName chatId ts), Ev.deleteStatus,
          Ev.fileRemove (reqName chatId ts)],
        states := [St.received, St.validated, St.fetching, St.verified,
          St.delivering, St.doneSt],
        terminal := St.doneSt } := by
  have hne := noChat_name_ne chatId ts fs hfs
  simp only [handleMessage, hurl, if_true,
    downloadVideo_ok_eq url chatId ts duration sz fs hfs hsz]
  have hrm : fsRemove (fs ++ [⟨reqName chatId ts, sz⟩]) (reqName chatId ts) = fs :=
    fsRemove_append_single fs ⟨reqName chatId ts, sz⟩ hne
  simp [errTruthy, hrm]

/-- C7 applied at the concrete scenario of the spec: a valid link and a
10 MB result. -/
theorem C7_witness :
    urlOk "https://youtu.be/abc123" = true ∧
    noChatFiles 1 [] = true ∧
    ¬ 10 * 1024 * 1024 > sizeCap ∧
    handleMessage "https://youtu.be/abc123" 1 0 0
        (ToolOutcome.success [⟨reqName 1 0, 10 * 1024 * 1024⟩]) true [] =
      { fs := [],
        evs := [Ev.sendText 1 procMsg, Ev.toolRun "https://youtu.be/abc123",
          Ev.editText uploadMsg, Ev.sendVideo 1 (reqName 1 0), Ev.deleteStatus,
          Ev.fileRemove (reqName 1 0)],
        states := [St.received, St.validated, St.fetching, St.verified,
          St.delivering, St.doneSt],
        terminal := St.doneSt } :=
  ⟨by decide, by decide, by decide,
    C7_theorem "https://youtu.be/abc123" 1 0 0 (10 * 1024 * 1024) []
      (by decide) (by decide) (by decide)⟩

/-! Claim C1: cleanup on every exit path. -/

/-- The sweep filter leaves no chat-fragment match behind. -/
theorem noChatFiles_filter (chatId : Int) (l : FS) :
    noChatFiles chatId
      (l.filter (fun f => !(strStartsWith f.name (chatPre chatId)))) = true := by
  rw [noChatFiles, List.all_eq_true]
  intro f hf
  simp only [List.mem_filter] at hf
  exact hf.2

/-- In a clean directory no existing file carries the name of a
chat-fragment file. -/
theorem noChat_name_ne_any (chatId : Int) (fs : FS) (d : DiskFile)
    (hfs : noChatFiles chatId fs = true)
    (hd : strStartsWith d.name (chatPre chatId) = true) :
    ∀ f ∈ fs, (f.name == d.name) = false := by
  intro f hf
  have h1 := List.all_eq_true.1 hfs f hf
  rw [Bool.not_eq_true'] at h1
  by_contra hne2
  rw [Bool.not_eq_false, beq_iff_eq] at hne2
  rw [hne2, hd] at h1
  simp at h1

/-- The resolution scan over a clean directory plus one chat-fragment file
finds exactly that file, whatever its name. -/
theorem find?_one_match (chatId : Int) (fs : FS) (d : DiskFile)
    (hfs : noChatFiles chatId fs = true)
    (hd : strStartsWith d.name (chatPre chatId) = true) :
    (listdir (fs ++ [d])).find? (fun f => strStartsWith f (chatPre chatId))
      = some d.name := by
  have h1 := find?_names_none chatId fs hfs
  simp only [listdir, List.map_append] at h1 ⊢
  rw [List.find?_append, h1]
  simp [List.find?_cons, hd]

/-- The resolution scan finds nothing when the one written file does not
match the chat fragment either. -/
theorem find?_one_noMatch (chatId : Int) (fs : FS) (d : DiskFile)
    (hfs : noChatFiles chatId fs = true)
    (hd : strStartsWith d.name (chatPre chatId) = false) :
    (listdir (fs ++ [d])).find? (fun f => strStartsWith f (chatPre chatId))
      = none := by
  have h1 := find?_names_none chatId fs hfs
  simp only [listdir, List.map_append] at h1 ⊢
  rw [List.find?_append, h1]
  simp [List.find?_cons, hd]

/-- Evaluation of download_video when the tool wrote one file that does not
match the chat fragment: resolution fails and the file stays behind. -/
theorem downloadVideo_one_noMatch_eq (url : String) (chatId : Int)
    (ts duration : Nat) (d : DiskFile) (fs : FS)
    (hfs : noChatFiles chatId fs = true)
    (hd : strStartsWith d.name (chatPre chatId) = false) :
    downloadVideo url chatId ts duration (ToolOutcome.success [d]) fs =
      { fs := fs ++ [d], path := none, err := some notFoundMsg,
        evs := [Ev.toolRun url] } := by
  simp only [downloadVideo, find?_one_noMatch chatId fs d hfs hd]

/-- Evaluation of download_video when the tool wrote one chat-fragment file,
of whatever name, that is too large. -/
theorem downloadVideo_one_large_eq (url : String) (chatId : Int)
    (ts duration : Nat) (d : DiskFile) (fs : FS)
    (hfs : noChatFiles chatId fs = true)
    (hd : strStartsWith d.name (chatPre chatId) = true)
    (hsz : d.size > sizeCap) :
    downloadVideo url chatId ts duration (ToolOutcome.success [d]) fs =
      { fs := fs, path := none, err := some tooLargeMsg,
        evs := [Ev.toolRun url, Ev.fileRemove d.name] } := by
  have hne := noChat_name_ne_any chatId fs d hfs hd
  have hg : getsize (fs ++ [d]) d.name = d.size := getsize_append_single fs d hne
  have hr : fsRemove (fs ++ [d]) d.name = fs := fsRemove_append_single fs d hne
  simp only [downloadVideo, find?_one_match chatId fs d hfs hd, hg, hr]
  rw [if_pos hsz]

/-- Evaluation of download_video when the tool wrote one chat-fragment file,
of whatever name, within the size bound. -/
theorem downloadVideo_one_ok_eq (url : String) (chatId : Int)
    (ts duration : Nat) (d : DiskFile) (fs : FS)
    (hfs : noChatFiles chatId fs = true)
    (hd : strStartsWith d.name (chatPre chatId) = true)
    (hsz : ¬ d.size > sizeCap) :
    downloadVideo url chatId ts duration (ToolOutcome.success [d]) fs =
      { fs := fs ++ [d], path := some d.name, err := none,
        evs := [Ev.toolRun url] } := by
  have hne := noChat_name_ne_any chatId fs d hfs hd
  have hg : getsize (fs ++ [d]) d.name = d.size := getsize_append_single fs d hne
  simp only [downloadVideo, find?_one_match chatId fs d hfs hd, hg]
  rw [if_neg hsz]

/-- Appending one non-fragment file keeps the directory clean. -/
theorem noChatFiles_append_one (chatId : Int) (fs : FS) (d : DiskFile)
    (hfs : noChatFiles chatId fs = true)
    (hd : strStartsWith d.name (chatPre chatId) = false) :
    noChatFiles chatId (fs ++ [d]) = true := by
  rw [noChatFiles, List.all_eq_true]
  intro f hf
  rcases List.mem_append.1 hf with h | h
  · exact List.all_eq_true.1 hfs f h
  · simp only [List.mem_singleton] at h
    subst h
    simp [hd]

/-- C1 amended: on every terminal exit path at most one cleanup action runs
(zero on the invalid-URL and no-file paths, where no artifact exists), and
afterwards no file matching the chat fragment of the request remains in the
directory, provided no such file pre-existed and the tool wrote at most one
file, whatever name the tool chose for it (covering renamed outputs). -/
theorem C1_theorem (text : String) (chatId : Int) (ts duration : Nat)
    (tool : ToolOutcome) (deliveryOk : Bool) (fs : FS)
    (hfs : noChatFiles chatId fs = true)
    (htool : tool = ToolOutcome.success [] ∨
      (∃ d, tool = ToolOutcome.success [d]) ∨
      ∃ w m, tool = ToolOutcome.failure w m) :
    cleanupCount (handleMessage text chatId ts duration tool deliveryOk fs).evs ≤ 1 ∧
    noChatFiles chatId (handleMessage text chatId ts duration tool deliveryOk fs).fs
      = true := by
  by_cases hu : urlOk text = true
  · rcases htool with h | ⟨d, h⟩ | ⟨w, m, h⟩
    · subst h
      simp only [handleMessage, hu, if_true,
        downloadVideo_notFound_eq text chatId ts duration fs hfs]
      have he : errTruthy (some notFoundMsg) = true := by decide
      simp only [he, if_true]
      exact ⟨by simp [cleanupCount, cleanupEv], hfs⟩
    · subst h
      by_cases hd : strStartsWith d.name (chatPre chatId) = true
      · by_cases hsz : d.size > sizeCap
        · simp only [handleMessage, hu, if_true,
            downloadVideo_one_large_eq text chatId ts duration d fs hfs hd hsz]
          have he : errTruthy (some tooLargeMsg) = true := by decide
          simp only [he, if_true]
          exact ⟨by simp [cleanupCount, cleanupEv], hfs⟩
        · have hne := noChat_name_ne_any chatId fs d hfs hd
          have hrm := fsRemove_append_single fs d hne
          have hex := fsExists_append_single fs d
          simp only [handleMessage, hu, if_true,
            downloadVideo_one_ok_eq text chatId ts duration d fs hfs hd hsz]
          by_cases hdel : deliveryOk = true
          · simp only [errTruthy, hdel, if_true]
            refine ⟨by simp [cleanupCount, cleanupEv], ?_⟩
            simp only [hrm]
            exact hfs
          · simp only [errTruthy, hdel, if_false]
            simp only [Bool.false_eq_true, if_false, hex, if_true, hdel]
            refine ⟨by simp [cleanupCount, cleanupEv], ?_⟩
            simp only [hrm]
            exact hfs
      · rw [Bool.not_eq_true] at hd
        simp only [handleMessage, hu, if_true,
          downloadVideo_one_noMatch_eq text chatId ts duration d fs hfs hd]
        have he : errTruthy (some notFoundMsg) = true := by decide
        simp only [he, if_true]
        exact ⟨by simp [cleanupCount, cleanupEv],
          noChatFiles_append_one chatId fs d hfs hd⟩
    · subst h
      simp only [handleMessage, hu, if_true,
        downloadVideo_failure_eq text chatId ts duration w m fs]
      by_cases hm : errTruthy (some m) = true
      · simp only [hm, if_true]
        exact ⟨by simp [cleanupCount, cleanupEv], noChatFiles_filter chatId (fs ++ w)⟩
      · simp only [hm, if_false]
        exact ⟨by simp [cleanupCount, cleanupEv], noChatFiles_filter chatId (fs ++ w)⟩
  · simp only [handleMessage, hu, if_false]
    exact ⟨by simp [cleanupCount, cleanupEv], hfs⟩

/-- C1 applied at a concrete successful request. -/
theorem C1_witness :
    noChatFiles 1 [] = true ∧
    (cleanupCount (handleMessage "https://youtu.be/abc123" 1 0 0
        (ToolOutcome.success [⟨reqName 1 0, 5⟩]) true []).evs ≤ 1 ∧
     noChatFiles 1 (handleMessage "https://youtu.be/abc123" 1 0 0
        (ToolOutcome.success [⟨reqName 1 0, 5⟩]) true []).fs = true) :=
  ⟨by decide, C1_theorem "https://youtu.be/abc123" 1 0 0
    (ToolOutcome.success [⟨reqName 1 0, 5⟩]) true [] (by decide)
    (Or.inr (Or.inl ⟨⟨reqName 1 0, 5⟩, rfl⟩))⟩

/-- C1 counterexample, two failures of the claim as stated.  First, on the
invalid-URL exit path the cleanup step runs zero times, not exactly once.
Second, when the tool leaves a second chat-fragment file (a .part leftover)
beside the resolved one, the run ends in Done yet a file whose name starts
with the request prefix video_1_0.mp4 remains on disk. -/
theorem C1_counterexample :
    ((handleMessage "hello" 1 0 0 (ToolOutcome.success []) true []).terminal =
        St.failed FailReason.invalidUrl ∧
     cleanupCount (handleMessage "hello" 1 0 0 (ToolOutcome.success []) true []).evs
        = 0) ∧
    ((handleMessage "https://youtu.be/abc123" 1 0 0
        (ToolOutcome.success [⟨reqName 1 0, 5⟩, ⟨"video_1_0.mp4.part", 3⟩])
        true []).terminal = St.doneSt ∧
     (handleMessage "https://youtu.be/abc123" 1 0 0
        (ToolOutcome.success [⟨reqName 1 0, 5⟩, ⟨"video_1_0.mp4.part", 3⟩])
        true []).fs = [⟨"video_1_0.mp4.part", 3⟩] ∧
     strStartsWith "video_1_0.mp4.part" (reqName 1 0) = true) :=
  ⟨⟨by decide, by decide⟩, by decide, by decide, by decide⟩

/-! Claim C4: artifact namespaces of distinct chats. -/

/-- C4 counterexample: chat identities 1 and 12 are distinct, yet the file
video_12_3.mp4 belonging to chat 12 matches the scan fragment of chat 1: a
chat-1 request resolves it as its own artifact, and the exception sweep of a
chat-1 request deletes it. -/
theorem C4_counterexample :
    (1 : Int) ≠ 12 ∧
    strStartsWith "video_12_3.mp4" (chatPre 12) = true ∧
    strStartsWith "video_12_3.mp4" (chatPre 1) = true ∧
    (downloadVideo "u" 1 5 0 (ToolOutcome.success [])
        [⟨"video_12_3.mp4", 7⟩]).path = some "video_12_3.mp4" ∧
    (downloadVideo "u" 1 5 0 (ToolOutcome.failure [] "boom")
        [⟨"video_12_3.mp4", 7⟩]).fs = [] :=
  ⟨by decide, by decide, by decide, by decide, by decide⟩

/-- C4 amended: the requested output paths of two requests with distinct
chat identities never collide, unconditionally; resolution and deletion
scan only for the fragment video_{chat_id}, and when neither chat identity
rendered as a string is a prefix of the other, those fragments are
disjoint: no file name can match both, so resolution and deletion stay
within the owning request (the counterexample shows they do not when one
identity is a decimal prefix of the other). -/
theorem C4_theorem (a b : Int) (ta tb : Nat) (f : String) (hne : a ≠ b) :
    reqName a ta ≠ reqName b tb ∧
    (strStartsWith (toString b) (toString a) = false →
     strStartsWith (toString a) (toString b) = false →
     ¬ (strStartsWith f (chatPre a) = true ∧ strStartsWith f (chatPre b) = true)) := by
  constructor
  · intro hEq
    exact hne (reqName_inj_chat a b ta tb hEq)
  · intro hab hba
    simp only [strStartsWith] at hab hba
    rintro ⟨hga, hgb⟩
    rw [strStartsWith, List.isPrefixOf_iff_prefix] at hga hgb
    rw [chatPre, String.data_append] at hga hgb
    rcases List.prefix_or_prefix_of_prefix hga hgb with h | h
    · rw [List.prefix_append_right_inj, ← List.isPrefixOf_iff_prefix] at h
      rw [hab] at h
      simp at h
    · rw [List.prefix_append_right_inj, ← List.isPrefixOf_iff_prefix] at h
      rw [hba] at h
      simp at h

/-- C4 applied at the concrete chat identities 7 and 8. -/
theorem C4_witness :
    (7 : Int) ≠ 8 ∧
    (reqName 7 1 ≠ reqName 8 2 ∧
     (strStartsWith (toString (8 : Int)) (toString (7 : Int)) = false →
      strStartsWith (toString (7 : Int)) (toString (8 : Int)) = false →
      ¬ (strStartsWith "x" (chatPre 7) = true ∧
         strStartsWith "x" (chatPre 8) = true))) :=
  ⟨by decide, C4_theorem 7 8 1 2 "x" (by decide)⟩
